import Mathlib

/-!
# RASA-AUTH configuration and authorization check (`rasa_old.c`, `rasa.h`)

Shallow embedding of `rasa_load_config`, `rasa_free_config` and
`rasa_check_auth`, of the C string routines and json-c accessors they call,
and of sessions of calls on the structs of one caller, followed by the
properties of the load and of the check.

Conventions of the embedding.

* A `char` is a `Nat` (its value as an unsigned byte).
* A `const char *` argument is an `Option (List Nat)`: `none` is the NULL
  pointer, `some m` is a pointer at which the bytes `m` are found.  The string
  routines read up to the first NUL; reading at the end of the list gives NUL,
  so every list denotes a terminated string, `cstring m`.
* A `struct rasa_auth *` or `struct rasa_config *` argument is an `Option` of
  the struct; a function that writes through the pointer returns the struct
  as it is after the call.
* `uint32_t asn` is a `Nat`.
* The file system, the allocator and the JSON parser are an environment `Env`
  handed to `rasa_load_config`.
* `rasa_check_set_membership` and `rasa_verify_bidirectional`, which `rasa.h`
  declares and no source file defines, are modelled from the specification.
-/

set_option linter.unusedVariables false

namespace Rasa

/-! ## C strings -/

/-- The bytes of a string literal of the source.  Every literal of `rasa_old.c`
is ASCII, so the code of each character is its byte. -/
def lit (s : String) : List Nat :=
  s.toList.map Char.toNat

/-- The string a `char *` denotes: the bytes before the first NUL. -/
def cstring : List Nat → List Nat
  | [] => []
  | c :: m => if c = 0 then [] else c :: cstring m

/-- The `strlen` of libc. -/
def strlen (m : List Nat) : Nat :=
  (cstring m).length

/-- The `strcmp` of libc: walk both strings until the bytes differ or both
end; the result is the difference of the two bytes, as unsigned chars. -/
def strcmp : List Nat → List Nat → Int
  | [], [] => 0
  | [], c2 :: _ => 0 - (c2 : Int)
  | c1 :: _, [] => (c1 : Int) - 0
  | c1 :: m1, c2 :: m2 =>
    if c1 ≠ c2 then (c1 : Int) - (c2 : Int)
    else if c1 = 0 then 0
    else strcmp m1 m2

/-- The `strcpy` of libc on the destination buffer `dst`: the bytes of the
source string and its terminating NUL overwrite the front of the buffer, the
bytes behind them stay. -/
def strcpy (dst src : List Nat) : List Nat :=
  cstring src ++ 0 :: dst.drop (strlen src + 1)

/-! ## Data model (`rasa.h`) -/

/-- The configuration struct, `struct rasa_config { int enabled; }`. -/
structure rasa_config where
  enabled : Int
  deriving DecidableEq, Repr

/-- The result struct, `struct rasa_auth { int authorized; char reason[256]; }`;
`reason` is the content of the 256-byte array. -/
structure rasa_auth where
  authorized : Int
  reason : List Nat
  deriving DecidableEq, Repr

/-- A result struct as the tests declare it: `struct rasa_auth result = {0}`. -/
def rasa_auth_zero : rasa_auth :=
  { authorized := 0, reason := List.replicate 256 0 }

/-! ## `rasa_check_auth` (`rasa_old.c`)

The C function receives the ASN, the asset name and the result pointer; it
takes no `struct rasa_config` and reads no global, so the embedding has no
other argument either. -/

/-- Embedding of `int rasa_check_auth(uint32_t asn, const char *asset,
struct rasa_auth *result)`: the return code and `*result` after the call. -/
def rasa_check_auth (asn : Nat) (asset : Option (List Nat)) (result : Option rasa_auth) :
    Int × Option rasa_auth :=
  match asset, result with
  | some asset, some result =>
    -- result->authorized = 0; result->reason[0] = 0
    let result := { result with authorized := 0 }
    let result := { result with reason := result.reason.set 0 0 }
    -- `if (0)`: placeholder, config not loaded yet
    if (0 : Int) ≠ 0 then
      (0, some { result with authorized := 1 })
    else if strcmp asset (lit "AS-TEST") = 0 then
      let result := { result with authorized := 1 }
      let result := { result with reason := strcpy result.reason (lit "asset authorized") }
      (0, some result)
    else
      -- Default: not authorized
      let result := { result with reason := strcpy result.reason (lit "asset not in authorized list") }
      (0, some result)
  | _, _ => (-1, result)

/-- The `authorized` field of `*result` after a call (`none` for a NULL result). -/
def authorized_of (out : Int × Option rasa_auth) : Option Int :=
  out.2.map rasa_auth.authorized

/-- The string in `result->reason` after a call (`none` for a NULL result). -/
def reason_of (out : Int × Option rasa_auth) : Option (List Nat) :=
  out.2.map fun r => cstring r.reason


/-! ## Loaded authorization data -/

/-- One authorization statement of a configuration document, as the documents
of the test-suite write it:
`{"rasa": {"authorized_as": asn, "authorized_in": [{"entry": {"asset": name}}, ...]}}`. -/
structure rasa_statement where
  authorized_as : Nat
  authorized_in : List (List Nat)
  deriving DecidableEq, Repr

/-- The ASN has a statement in the loaded data. -/
def has_statement (loaded : List rasa_statement) (asn : Nat) : Prop :=
  ∃ st ∈ loaded, st.authorized_as = asn

/-- The AS-SET names the loaded data declares for the ASN: the union of the
`authorized_in` lists of its statements. -/
def declared_in (loaded : List rasa_statement) (asn : Nat) : List (List Nat) :=
  (loaded.filter fun st => st.authorized_as = asn).flatMap rasa_statement.authorized_in

/-- The `tolower` of libc in the C locale. -/
def tolower (c : Nat) : Nat :=
  if 65 ≤ c ∧ c ≤ 90 then c + 32 else c

/-- The `isspace` of libc in the C locale: space, `\t`, `\n`, `\v`, `\f`, `\r`. -/
def isspace (c : Nat) : Bool :=
  c = 32 || (9 ≤ c && c ≤ 13)

/-- Two names differ, and only in the case of letters. -/
def differs_only_in_case (s t : List Nat) : Prop :=
  s ≠ t ∧ s.map tolower = t.map tolower

/-! ## json-c values (`json.h`)

The library json-c is not part of the sources; the accessors `rasa_load_config`
calls are modelled on a value type, the parser is a parameter of the
environment. -/

/-- The `json_type` of json-c. -/
inductive json_type where
  | json_type_null
  | json_type_boolean
  | json_type_double
  | json_type_int
  | json_type_object
  | json_type_array
  | json_type_string
  deriving DecidableEq, Repr

/-- A `struct json_object` of json-c.  A `struct json_object *` is an
`Option json_object`: json-c has the NULL pointer for the JSON value null. -/
inductive json_object where
  | boolean (b : Bool)
  | double (text : List Nat)
  | int (i : Int)
  | object (members : List (List Nat × Option json_object))
  | array (items : List (Option json_object))
  | string (s : List Nat)

/-- The `json_object_get_type` of json-c. -/
def json_object_get_type : Option json_object → json_type
  | none => json_type.json_type_null
  | some (json_object.boolean _) => json_type.json_type_boolean
  | some (json_object.double _) => json_type.json_type_double
  | some (json_object.int _) => json_type.json_type_int
  | some (json_object.object _) => json_type.json_type_object
  | some (json_object.array _) => json_type.json_type_array
  | some (json_object.string _) => json_type.json_type_string

/-- The `json_object_is_type` of json-c. -/
def json_object_is_type (obj : Option json_object) (type : json_type) : Bool :=
  json_object_get_type obj = type

/-- The `json_object_object_get_ex` of json-c: whether the object has the key,
and the value found (NULL when there is none). -/
def json_object_object_get_ex (obj : Option json_object) (key : List Nat) :
    Bool × Option json_object :=
  match obj with
  | some (json_object.object members) =>
    match members.find? (fun kv => kv.1 = cstring key) with
    | some kv => (true, kv.2)
    | none => (false, none)
  | _ => (false, none)

/-- The `json_object_array_length` of json-c. -/
def json_object_array_length : Option json_object → Nat
  | some (json_object.array items) => items.length
  | _ => 0

/-- The `json_object_array_get_idx` of json-c. -/
def json_object_array_get_idx (obj : Option json_object) (idx : Nat) : Option json_object :=
  match obj with
  | some (json_object.array items) => (items.get? idx).join
  | _ => none

/-! ## `rasa_load_config` and `rasa_free_config` (`rasa_old.c`) -/

/-- What `rasa_load_config` meets outside the program: `fopen name` is the
content `fopen(name, "r")` gives access to, `none` when the file cannot be
opened; `malloc n` tells whether an allocation of `n` bytes succeeds;
`json_tokener_parse` is the parser of json-c on a NUL-terminated buffer, `none`
being the NULL it returns for text it does not accept. -/
structure Env where
  fopen : List Nat → Option (List Nat)
  malloc : Nat → Bool
  json_tokener_parse : List Nat → Option json_object

/-- The environment in which the file `name` has the given content. -/
def with_file (env : Env) (name content : List Nat) : Env :=
  { env with fopen := fun n => if n = name then some content else env.fopen n }

/-- Outcome of a `rasa_load_config` call: the return code, `*cfg` after the
call, and the names passed to `fopen`. -/
structure load_out where
  ret : Int
  cfg : Option rasa_config
  fopened : List (List Nat)

/-- The body of the loop over the "rasas" array: both keys are looked up and
nothing is stored. -/
def load_rasa_obj (cfg : rasa_config) (rasa_obj : Option json_object) : rasa_config :=
  let authorized_as_obj := json_object_object_get_ex rasa_obj (lit "authorized_as")
  let authorized_in_obj := json_object_object_get_ex rasa_obj (lit "authorized_in")
  if authorized_as_obj.1 && authorized_in_obj.1 then
    -- both keys found: nothing is done with them
    cfg
  else
    cfg

/-- The part of `rasa_load_config` that extracts the "rasas" array from the
parsed document. -/
def load_rasas (cfg : rasa_config) (root : json_object) : rasa_config :=
  let rasas_obj := json_object_object_get_ex (some root) (lit "rasas")
  if rasas_obj.1 then
    if json_object_is_type rasas_obj.2 json_type.json_type_array then
      let len := json_object_array_length rasas_obj.2
      (List.range len).foldl
        (fun cfg i => load_rasa_obj cfg (json_object_array_get_idx rasas_obj.2 i)) cfg
    else
      cfg
  else
    cfg

/-- Embedding of `int rasa_load_config(struct rasa_config *cfg,
const char *filename)`. -/
def rasa_load_config (env : Env) (cfg : Option rasa_config) (filename : Option (List Nat)) :
    load_out :=
  match cfg, filename with
  | some cfg, some filename =>
    -- cfg->enabled = 1, before the file is opened
    let cfg := { cfg with enabled := 1 }
    match env.fopen (cstring filename) with
    | none => { ret := -1, cfg := some cfg, fopened := [cstring filename] }
    | some content =>
      let size := content.length
      if env.malloc (size + 1) = false then
        { ret := -1, cfg := some cfg, fopened := [cstring filename] }
      else
        let buffer := content ++ [0]
        match env.json_tokener_parse buffer with
        | none => { ret := -1, cfg := some cfg, fopened := [cstring filename] }
        | some root =>
          { ret := 0, cfg := some (load_rasas cfg root), fopened := [cstring filename] }
  | _, _ => { ret := -1, cfg := cfg, fopened := [] }

/-- Embedding of `void rasa_free_config(struct rasa_config *cfg)`: `*cfg`
after the call. -/
def rasa_free_config (cfg : Option rasa_config) : Option rasa_config :=
  match cfg with
  | none => none
  | some cfg => some cfg

/-! ## Sessions

A caller, as every test of the suite, owns one `struct rasa_config` and one
`struct rasa_auth` and calls the three functions on them in some order.  The C
code has no global and no static variable, so these two structs and the
environment are all a call can see of the calls before it. -/

/-- One call of the API on the structs of the caller. -/
inductive api_call where
  | load (filename : Option (List Nat))
  | free
  | check (asn : Nat) (asset : Option (List Nat))

/-- The structs of the caller and the return codes of the calls made so far. -/
structure session where
  cfg : Option rasa_config
  result : Option rasa_auth
  rets : List Int

/-- The session after one more call. -/
def session_step (env : Env) (st : session) : api_call → session
  | api_call.load filename =>
    let out := rasa_load_config env st.cfg filename
    { st with cfg := out.cfg, rets := st.rets ++ [out.ret] }
  | api_call.free =>
    { st with cfg := rasa_free_config st.cfg }
  | api_call.check asn asset =>
    let out := rasa_check_auth asn asset st.result
    { st with result := out.2, rets := st.rets ++ [out.1] }

/-- The session after a sequence of calls. -/
def session_run (env : Env) (st : session) (calls : List api_call) : session :=
  calls.foldl (session_step env) st

/-- The answer a session holds for its last query: the last return code, the
`authorized` field and the reason string of the result struct. -/
def answer (st : session) : Option Int × Option Int × Option (List Nat) :=
  (st.rets.getLast?, st.result.map rasa_auth.authorized,
    st.result.map fun r => cstring r.reason)

/-- A session as the tests start it: `struct rasa_config cfg = {0}` and
`struct rasa_auth result = {0}`, no call made. -/
def session_zero : session :=
  { cfg := some { enabled := 0 }, result := some rasa_auth_zero, rets := [] }

/-! ## RASA-AUTH objects (`rasa_auth.h`) -/

/-- The enum `PropagationScope`. -/
inductive PropagationScope where
  | PROPAGATION_UNRESTRICTED
  | PROPAGATION_DIRECT_ONLY
  deriving DecidableEq, Repr

/-- The flag `RASA_AUTH_FLAG_STRICT_MODE = 1 << 0` of the enum `RasaAuthFlags`. -/
def RASA_AUTH_FLAG_STRICT_MODE : Nat :=
  1 <<< 0

/-- The struct `AuthorizedEntry`. -/
structure AuthorizedEntry where
  asSetName : List Nat
  propagation : PropagationScope
  deriving DecidableEq, Repr

/-- The struct `RasaAuthContent`; of the union members `authorizedAS` and
`authorizedSet` the one `isAuthorizedAs` selects is meant, and
`authorizedInCount` is the length of `authorizedIn`. -/
structure RasaAuthContent where
  version : Nat
  isAuthorizedAs : Bool
  authorizedAS : Nat
  authorizedSet : List Nat
  authorizedIn : List AuthorizedEntry
  flags : Nat
  notBefore : List Nat
  notAfter : List Nat
  deriving DecidableEq, Repr

/-- The statement carries the strictMode flag. -/
def strict_mode (c : RasaAuthContent) : Bool :=
  c.flags &&& RASA_AUTH_FLAG_STRICT_MODE ≠ 0

/-- Two statement sets that agree in everything but the flags of their
statements. -/
def same_but_flags (l1 l2 : List RasaAuthContent) : Prop :=
  l1.map (fun c => { c with flags := 0 }) = l2.map (fun c => { c with flags := 0 })

/-! ## Documents and environments of the examples -/

/-- The configuration document of the given statements as a json-c value, in
the form the tests write:
`{"rasas": [{"rasa": {"authorized_as": asn, "authorized_in": [{"entry": {"asset": name}}, ...]}}, ...]}`. -/
def rasas_document (l : List rasa_statement) : json_object :=
  json_object.object [(lit "rasas", some (json_object.array (l.map fun st =>
    some (json_object.object [(lit "rasa", some (json_object.object [
      (lit "authorized_as", some (json_object.int st.authorized_as)),
      (lit "authorized_in", some (json_object.array (st.authorized_in.map fun name =>
        some (json_object.object [(lit "entry", some (json_object.object [
          (lit "asset", some (json_object.string name))]))]))))]))]))))]

/-- The text of one entry of authorized_in, `{"entry":{"asset":"name"}}`. -/
def entry_text (name : List Nat) : List Nat :=
  lit "\x7b\x22entry\x22:\x7b\x22asset\x22:\x22" ++ name ++ lit "\x22\x7d\x7d"

/-- The text of one statement,
`{"rasa":{"authorized_as":asn,"authorized_in":[entries]}}`. -/
def statement_text (st : rasa_statement) : List Nat :=
  lit "\x7b\x22rasa\x22:\x7b\x22authorized_as\x22:" ++ lit (toString st.authorized_as) ++
    lit ",\x22authorized_in\x22:[" ++
    List.flatten ((st.authorized_in.map entry_text).intersperse (lit ",")) ++
    lit "]\x7d\x7d"

/-- The text of the configuration document of the given statements,
`{"rasas":[statements]}`: the bytes of the file. -/
def rasas_text (l : List rasa_statement) : List Nat :=
  lit "\x7b\x22rasas\x22:[" ++
    List.flatten ((l.map statement_text).intersperse (lit ",")) ++
    lit "]\x7d"

/-- The bytes of the document `{}` of `test_rasa_auth_load_empty_object`. -/
def empty_object_text : List Nat :=
  lit "\x7b\x7d"

/-- The bytes of the text `{invalid json` of `test_rasa_auth_load_invalid_json`. -/
def invalid_json_text : List Nat :=
  lit "\x7binvalid json"

/-- The bytes of the document of `test_rasa_auth_non_integer_asn`,
`{"rasas":[{"rasa":{"authorized_as":"not-an-integer"}}]}`. -/
def non_integer_asn_text : List Nat :=
  lit "\x7b\x22rasas\x22:[\x7b\x22rasa\x22:\x7b\x22authorized_as\x22:\x22not-an-integer\x22\x7d\x7d]\x7d"

/-- The json-c value of the document of `test_rasa_auth_non_integer_asn`. -/
def non_integer_asn_document : json_object :=
  json_object.object [(lit "rasas", some (json_object.array [
    some (json_object.object [(lit "rasa", some (json_object.object [
      (lit "authorized_as", some (json_object.string (lit "not-an-integer")))]))])]))]

/-- The bytes of a document whose "rasas" is not an array, `{"rasas":5}`. -/
def rasas_not_array_text : List Nat :=
  lit "\x7b\x22rasas\x22:5\x7d"

/-- The json-c value of `{"rasas":5}`. -/
def rasas_not_array_document : json_object :=
  json_object.object [(lit "rasas", some (json_object.int 5))]

/-- An environment for the examples: no file exists yet, every allocation
succeeds, and the parser accepts the texts of the table, each with the value
the table gives it, and nothing else. -/
def env_parsing (table : List (List Nat × json_object)) : Env :=
  { fopen := fun _ => none,
    malloc := fun _ => true,
    json_tokener_parse := fun b =>
      (table.find? fun entry => entry.1 ++ [0] = b).map fun entry => entry.2 }

/-- The parse table of the examples. -/
def example_table : List (List Nat × json_object) :=
  [(empty_object_text, json_object.object []),
   (non_integer_asn_text, non_integer_asn_document),
   (rasas_not_array_text, rasas_not_array_document)]

/-- The environment of the examples in which no allocation succeeds. -/
def env_no_memory (table : List (List Nat × json_object)) : Env :=
  { env_parsing table with malloc := fun _ => false }

/-- A way of writing one RASA-AUTH object with its flags into a document, after
the statements of the tests:
`{"rasa":{"authorized_as":asn,"flags":flags,"authorized_in":[entries]}}`. -/
def auth_content_text (c : RasaAuthContent) : List Nat :=
  lit "\x7b\x22rasa\x22:\x7b\x22authorized_as\x22:" ++ lit (toString c.authorizedAS) ++
    lit ",\x22flags\x22:" ++ lit (toString c.flags) ++
    lit ",\x22authorized_in\x22:[" ++
    List.flatten ((c.authorizedIn.map fun e => entry_text e.asSetName).intersperse (lit ",")) ++
    lit "]\x7d\x7d"

/-- The text of a document of RASA-AUTH objects, `{"rasas":[objects]}`. -/
def auth_contents_text (l : List RasaAuthContent) : List Nat :=
  lit "\x7b\x22rasas\x22:[" ++
    List.flatten ((l.map auth_content_text).intersperse (lit ",")) ++
    lit "]\x7d"

/-- The json-c value of that document. -/
def auth_contents_document (l : List RasaAuthContent) : json_object :=
  json_object.object [(lit "rasas", some (json_object.array (l.map fun c =>
    some (json_object.object [(lit "rasa", some (json_object.object [
      (lit "authorized_as", some (json_object.int c.authorizedAS)),
      (lit "flags", some (json_object.int c.flags)),
      (lit "authorized_in", some (json_object.array (c.authorizedIn.map fun e =>
        some (json_object.object [(lit "entry", some (json_object.object [
          (lit "asset", some (json_object.string e.asSetName))]))]))))]))]))))]

/-- The RASA-AUTH object of ASN 64496 for "AS-TEST" with the given flags. -/
def auth_content_example (flags : Nat) : RasaAuthContent :=
  { version := 0, isAuthorizedAs := true, authorizedAS := 64496, authorizedSet := [],
    authorizedIn := [{ asSetName := lit "AS-TEST",
                       propagation := PropagationScope.PROPAGATION_UNRESTRICTED }],
    flags := flags, notBefore := lit "20250101000000Z", notAfter := lit "20260101000000Z" }

/-- A result struct left by an earlier successful query:
authorized = 1 and the reason "asset authorized". -/
def rasa_auth_used : rasa_auth :=
  { authorized := 1, reason := strcpy (List.replicate 256 0) (lit "asset authorized") }

/-- The environment of the examples whose parser accepts the documents of the
given sets of RASA-AUTH objects. -/
def env_auth_contents (sets : List (List RasaAuthContent)) : Env :=
  env_parsing (sets.map fun l => (auth_contents_text l, auth_contents_document l))

/-- The environment of the examples whose parser accepts the documents of the
given sets of statements. -/
def env_rasas (sets : List (List rasa_statement)) : Env :=
  env_parsing (sets.map fun l => (rasas_text l, rasas_document l))

/-- Whether a call is one of the configuration calls, `rasa_load_config` or
`rasa_free_config`. -/
def is_config_call : api_call → Bool
  | api_call.load _ => true
  | api_call.free => true
  | api_call.check _ _ => false

/-! ## RASA-SET membership and bidirectional verification (`rasa.h`)

The header declares `rasa_check_set_membership` and
`rasa_verify_bidirectional`; their bodies are not in the sources.  The C
functions take no store argument; in the model the loaded membership
statements are an explicit argument. -/

/-- The membership result struct,
`struct rasa_set_membership { int is_member; char reason[256]; }`. -/
structure rasa_set_membership where
  is_member : Int
  reason : List Nat
  deriving DecidableEq, Repr

/-- A membership result struct as the tests declare it:
`struct rasa_set_membership result = {0}`. -/
def rasa_set_membership_zero : rasa_set_membership :=
  { is_member := 0, reason := List.replicate 256 0 }

/-- One membership statement of a configuration document, as the documents of
the test-suite write it:
`{"rasa_set": {"as_set_name": name, "members": [asn, ...]}}`. -/
structure rasa_set_statement where
  as_set_name : List Nat
  members : List Nat
  deriving DecidableEq, Repr

/-- The statements the loaded data holds for an AS-SET name; a NULL name is
looked up literally and no statement has it. -/
def set_statements (store : List rasa_set_statement) (as_set_name : Option (List Nat)) :
    List rasa_set_statement :=
  match as_set_name with
  | none => []
  | some name => store.filter fun st => st.as_set_name = cstring name

/-- The merged member set of an AS-SET name: the union of the members lists of
all its statements. -/
def merged_members (store : List rasa_set_statement) (as_set_name : Option (List Nat)) :
    List Nat :=
  (set_statements store as_set_name).flatMap rasa_set_statement.members

/-- Modelled from the spec: `rasa_check_set_membership` is declared in `rasa.h`
and its body is missing from the sources.  After the Membership Evaluator
(4.2) and the error rules (7) of the spec: a call without a result destination
fails with -1 and no effect; a name without a statement gives is_member = 1 with
the reason "no RASA-SET for this AS-SET"; a name with a statement gives
is_member = 1 if the ASN is in the merged member set (the spec names no reason
for this case, the model writes the empty string) and otherwise is_member = 0
with the reason "ASN not in member list". -/
def rasa_check_set_membership (store : List rasa_set_statement)
    (as_set_name : Option (List Nat)) (asn : Nat) (result : Option rasa_set_membership) :
    Int × Option rasa_set_membership :=
  match result with
  | none => (-1, none)
  | some result =>
    if (set_statements store as_set_name).isEmpty then
      (0, some { is_member := 1,
                 reason := strcpy result.reason (lit "no RASA-SET for this AS-SET") })
    else if asn ∈ merged_members store as_set_name then
      (0, some { is_member := 1, reason := result.reason.set 0 0 })
    else
      (0, some { is_member := 0, reason := strcpy result.reason (lit "ASN not in member list") })

/-- Modelled from the spec: `rasa_verify_bidirectional` is declared in `rasa.h`
and its body is missing from the sources.  After the Bidirectional Verifier
(4.3) of the spec: the call fails with -1 and no effect when either output slot
is missing; otherwise it runs the authorization check, which is
`rasa_check_auth` of `rasa_old.c`, and the membership check on the same pair,
each on its own result struct, always both, and returns 0. -/
def rasa_verify_bidirectional (store : List rasa_set_statement)
    (as_set_name : Option (List Nat)) (asn : Nat) (auth_result : Option rasa_auth)
    (set_result : Option rasa_set_membership) :
    Int × Option rasa_auth × Option rasa_set_membership :=
  match auth_result, set_result with
  | some auth_result, some set_result =>
    let auth := rasa_check_auth asn as_set_name (some auth_result)
    let member := rasa_check_set_membership store as_set_name asn (some set_result)
    (0, auth.2, member.2)
  | _, _ => (-1, auth_result, set_result)

/-- The `is_member` field of `*result` after a call (`none` for a NULL result). -/
def is_member_of (out : Int × Option rasa_set_membership) : Option Int :=
  out.2.map rasa_set_membership.is_member

/-- The string in `result->reason` after a membership call (`none` for a NULL
result). -/
def member_reason_of (out : Int × Option rasa_set_membership) : Option (List Nat) :=
  out.2.map fun r => cstring r.reason

/-! ## Lemmas on the string routines -/

theorem cstring_of_no_nul (m : List Nat) (h : ∀ c ∈ m, c ≠ 0) : cstring m = m := by
  induction m with
  | nil => rfl
  | cons c m ih =>
    have hc : c ≠ 0 := h c (List.mem_cons_self c m)
    have hm : ∀ d ∈ m, d ≠ 0 := fun d hd => h d (List.mem_cons_of_mem c hd)
    simp [cstring, hc, ih hm]

theorem cstring_append_nul (s rest : List Nat) (h : ∀ c ∈ s, c ≠ 0) :
    cstring (s ++ 0 :: rest) = s := by
  induction s with
  | nil => simp [cstring]
  | cons c s ih =>
    have hc : c ≠ 0 := h c (List.mem_cons_self c s)
    have hs : ∀ d ∈ s, d ≠ 0 := fun d hd => h d (List.mem_cons_of_mem c hd)
    simp [cstring, hc, ih hs]

theorem cstring_no_nul (m : List Nat) : ∀ c ∈ cstring m, c ≠ 0 := by
  induction m with
  | nil => simp [cstring]
  | cons d m ih =>
    intro c hc
    by_cases hd : d = 0
    · simp [cstring, hd] at hc
    · simp only [cstring, hd, if_false, List.mem_cons] at hc
      rcases hc with rfl | hc
      · exact hd
      · exact ih c hc

theorem strcmp_eq_zero_iff (m1 m2 : List Nat) :
    strcmp m1 m2 = 0 ↔ cstring m1 = cstring m2 := by
  induction m1 generalizing m2 with
  | nil =>
    cases m2 with
    | nil => simp [strcmp, cstring]
    | cons c2 m2 =>
      by_cases h : c2 = 0
      · simp [strcmp, cstring, h]
      · simp [strcmp, cstring, h]
  | cons c1 m1 ih =>
    cases m2 with
    | nil =>
      by_cases h : c1 = 0
      · simp [strcmp, cstring, h]
      · simp [strcmp, cstring, h]
    | cons c2 m2 =>
      by_cases hne : c1 = c2
      · subst hne
        by_cases h : c1 = 0
        · simp [strcmp, cstring, h]
        · simp [strcmp, cstring, h, ih m2]
      · have hsub : (c1 : Int) - (c2 : Int) ≠ 0 := by omega
        by_cases h1 : c1 = 0
        · have h2 : c2 ≠ 0 := fun h => hne (h1.trans h.symm)
          simp [strcmp, cstring, hne, h1, h2, hsub]
          omega
        · by_cases h2 : c2 = 0
          · simp [strcmp, cstring, hne, h1, h2, hsub]
          · simp [strcmp, cstring, hne, h1, h2, hsub]

theorem cstring_strcpy (dst src : List Nat) : cstring (strcpy dst src) = cstring src := by
  unfold strcpy
  exact cstring_append_nul _ _ (cstring_no_nul src)

theorem tolower_eq_zero_iff (c : Nat) : tolower c = 0 ↔ c = 0 := by
  unfold tolower
  split <;> omega

theorem no_nul_of_map_tolower (s t : List Nat) (h : s.map tolower = t.map tolower)
    (ht : ∀ c ∈ t, c ≠ 0) : ∀ c ∈ s, c ≠ 0 := by
  intro c hc h0
  have hmem : tolower c ∈ t.map tolower := h ▸ List.mem_map_of_mem tolower hc
  obtain ⟨d, hd, hdc⟩ := List.mem_map.mp hmem
  have hd0 : tolower d = 0 := by rw [hdc, h0]; rfl
  exact ht d hd ((tolower_eq_zero_iff d).mp hd0)

theorem isspace_ne_zero (c : Nat) (h : isspace c = true) : c ≠ 0 := by
  intro h0
  subst h0
  simp [isspace] at h

/-! ## Lemmas on `rasa_check_auth` -/

theorem as_test_no_nul : ∀ c ∈ lit "AS-TEST", c ≠ 0 := by
  decide

theorem rasa_check_auth_ret_some (asn : Nat) (s : List Nat) (r : rasa_auth) :
    (rasa_check_auth asn (some s) (some r)).1 = 0 := by
  unfold rasa_check_auth
  by_cases h : strcmp s (lit "AS-TEST") = 0 <;> simp [h]

theorem rasa_check_auth_authorized_some (asn : Nat) (s : List Nat) (r : rasa_auth) :
    authorized_of (rasa_check_auth asn (some s) (some r))
      = some (if cstring s = lit "AS-TEST" then 1 else 0) := by
  have hlit : cstring (lit "AS-TEST") = lit "AS-TEST" := cstring_of_no_nul _ as_test_no_nul
  have hiff := strcmp_eq_zero_iff s (lit "AS-TEST")
  rw [hlit] at hiff
  unfold rasa_check_auth authorized_of
  by_cases h : strcmp s (lit "AS-TEST") = 0
  · simp [h, hiff.mp h]
  · have hne : cstring s ≠ lit "AS-TEST" := fun he => h (hiff.mpr he)
    simp [h, hne]

theorem rasa_check_auth_reason_some (asn : Nat) (s : List Nat) (r : rasa_auth) :
    reason_of (rasa_check_auth asn (some s) (some r))
      = some (if cstring s = lit "AS-TEST" then lit "asset authorized"
              else lit "asset not in authorized list") := by
  have hlit : cstring (lit "AS-TEST") = lit "AS-TEST" := cstring_of_no_nul _ as_test_no_nul
  have hiff := strcmp_eq_zero_iff s (lit "AS-TEST")
  rw [hlit] at hiff
  have h1 : cstring (lit "asset authorized") = lit "asset authorized" := by decide
  have h2 : cstring (lit "asset not in authorized list") = lit "asset not in authorized list" := by
    decide
  unfold rasa_check_auth reason_of
  by_cases h : strcmp s (lit "AS-TEST") = 0
  · simp [h, hiff.mp h, cstring_strcpy, h1]
  · have hne : cstring s ≠ lit "AS-TEST" := fun he => h (hiff.mpr he)
    simp [h, hne, cstring_strcpy, h2]

/-! ## The claims on `rasa_check_auth` -/

/-- C1, the code at the failing input: with nothing loaded (or the empty
document `{"rasas": []}`) ASN 12345 has no authorization statement, and the
query (12345, "AS-ANY") returns 0 with authorized = 0 and the reason
"asset not in authorized list", where default-allow asks for authorized = 1. -/
theorem rasa_check_auth_no_statement_denied :
    ¬ has_statement [] 12345 ∧
    (rasa_check_auth 12345 (some (lit "AS-ANY")) (some rasa_auth_zero)).1 = 0 ∧
    authorized_of (rasa_check_auth 12345 (some (lit "AS-ANY")) (some rasa_auth_zero)) = some 0 ∧
    reason_of (rasa_check_auth 12345 (some (lit "AS-ANY")) (some rasa_auth_zero))
      = some (lit "asset not in authorized list") := by
  refine ⟨?_, ?_, ?_, ?_⟩
  · simp [has_statement]
  · decide
  · decide
  · decide

/-- C2, the code at the failing input: the loaded statement of ASN 64496 lists
"AS2914:AS-GLOBAL" in authorized_in, and the query (64496, "AS2914:AS-GLOBAL")
returns 0 with authorized = 0, where the claim asks for authorized = 1. -/
theorem rasa_check_auth_listed_asset_denied :
    lit "AS2914:AS-GLOBAL" ∈ declared_in [⟨64496, [lit "AS2914:AS-GLOBAL"]⟩] 64496 ∧
    (rasa_check_auth 64496 (some (lit "AS2914:AS-GLOBAL")) (some rasa_auth_zero)).1 = 0 ∧
    authorized_of (rasa_check_auth 64496 (some (lit "AS2914:AS-GLOBAL")) (some rasa_auth_zero))
      = some 0 := by
  refine ⟨?_, ?_, ?_⟩
  · decide
  · decide
  · decide

/-- C3, the code at the failing input: the loaded statement of ASN 64496 has
authorized_in = [], and the query (64496, "AS-TEST") returns 0 with
authorized = 1, where the claim asks for authorized = 0. -/
theorem rasa_check_auth_empty_list_allowed :
    has_statement [⟨64496, []⟩] 64496 ∧
    declared_in [⟨64496, []⟩] 64496 = [] ∧
    (rasa_check_auth 64496 (some (lit "AS-TEST")) (some rasa_auth_zero)).1 = 0 ∧
    authorized_of (rasa_check_auth 64496 (some (lit "AS-TEST")) (some rasa_auth_zero))
      = some 1 := by
  refine ⟨?_, ?_, ?_, ?_⟩
  · simp [has_statement]
  · decide
  · decide
  · decide

/-- C4, the code at the failing input: ASN 64496 lists "AS-A" and ASN 64497
lists only "AS-B"; the query (64496, "AS-A") gives authorized = 0 although
64496 lists "AS-A" (the claim asks for 1), the same value as (64497, "AS-A"). -/
theorem rasa_check_auth_no_isolation :
    lit "AS-A" ∈ declared_in [⟨64496, [lit "AS-A"]⟩, ⟨64497, [lit "AS-B"]⟩] 64496 ∧
    lit "AS-A" ∉ declared_in [⟨64496, [lit "AS-A"]⟩, ⟨64497, [lit "AS-B"]⟩] 64497 ∧
    authorized_of (rasa_check_auth 64496 (some (lit "AS-A")) (some rasa_auth_zero)) = some 0 ∧
    authorized_of (rasa_check_auth 64497 (some (lit "AS-A")) (some rasa_auth_zero)) = some 0 := by
  refine ⟨?_, ?_, ?_, ?_⟩
  · decide
  · decide
  · decide
  · decide

/-- C5: when only "AS-TEST" was declared for ASN a, the query (a, "AS-TEST")
gives authorized = 1, and every name that differs from "AS-TEST" only in the
case of some letters gives authorized = 0, whatever the result struct held. -/
theorem rasa_check_auth_case_sensitive (loaded : List rasa_statement) (a : Nat)
    (honly : ∀ e, e ∈ declared_in loaded a ↔ e = lit "AS-TEST") :
    (∀ r, authorized_of (rasa_check_auth a (some (lit "AS-TEST")) (some r)) = some 1) ∧
    (∀ s r, differs_only_in_case s (lit "AS-TEST") →
      authorized_of (rasa_check_auth a (some s) (some r)) = some 0) := by
  constructor
  · intro r
    rw [rasa_check_auth_authorized_some, cstring_of_no_nul _ as_test_no_nul]
    simp
  · intro s r hs
    have hnul : ∀ c ∈ s, c ≠ 0 := no_nul_of_map_tolower s _ hs.2 as_test_no_nul
    rw [rasa_check_auth_authorized_some, cstring_of_no_nul s hnul]
    simp [hs.1]

/-- C5 at ASN 64496 with the statement {64496: ["AS-TEST"]}: "AS-TEST" is
authorized, "as-test" is not. -/
theorem rasa_check_auth_case_sensitive_witness :
    (∀ e, e ∈ declared_in [⟨64496, [lit "AS-TEST"]⟩] 64496 ↔ e = lit "AS-TEST") ∧
    authorized_of (rasa_check_auth 64496 (some (lit "AS-TEST")) (some rasa_auth_zero)) = some 1 ∧
    authorized_of (rasa_check_auth 64496 (some (lit "as-test")) (some rasa_auth_zero)) = some 0 :=
  have h : ∀ e, e ∈ declared_in [⟨64496, [lit "AS-TEST"]⟩] 64496 ↔ e = lit "AS-TEST" := by
    intro e
    simp [declared_in]
  ⟨h, (rasa_check_auth_case_sensitive _ 64496 h).1 rasa_auth_zero,
    (rasa_check_auth_case_sensitive _ 64496 h).2 (lit "as-test") rasa_auth_zero
      ⟨by decide, by decide⟩⟩

/-- C6: when only "AS-TEST" was declared for ASN a, every name made of
"AS-TEST" with whitespace added before or after it, at least one character in
all, returns 0 with authorized = 0: nothing is trimmed. -/
theorem rasa_check_auth_no_trim (loaded : List rasa_statement) (a : Nat) (r : rasa_auth)
    (pre post : List Nat)
    (honly : ∀ e, e ∈ declared_in loaded a ↔ e = lit "AS-TEST")
    (hpre : ∀ c ∈ pre, isspace c = true) (hpost : ∀ c ∈ post, isspace c = true)
    (hadd : pre ≠ [] ∨ post ≠ []) :
    (rasa_check_auth a (some (pre ++ lit "AS-TEST" ++ post)) (some r)).1 = 0 ∧
    authorized_of (rasa_check_auth a (some (pre ++ lit "AS-TEST" ++ post)) (some r))
      = some 0 := by
  refine ⟨rasa_check_auth_ret_some _ _ _, ?_⟩
  have hnul : ∀ c ∈ pre ++ lit "AS-TEST" ++ post, c ≠ 0 := by
    intro c hc
    simp only [List.mem_append] at hc
    rcases hc with (hc | hc) | hc
    · exact isspace_ne_zero c (hpre c hc)
    · exact as_test_no_nul c hc
    · exact isspace_ne_zero c (hpost c hc)
  have hlen : (pre ++ lit "AS-TEST" ++ post).length ≠ (lit "AS-TEST").length := by
    have h1 : 0 < pre.length ∨ 0 < post.length := by
      rcases hadd with h | h
      · exact Or.inl (List.length_pos.mpr h)
      · exact Or.inr (List.length_pos.mpr h)
    simp only [List.length_append]
    omega
  have hne : pre ++ lit "AS-TEST" ++ post ≠ lit "AS-TEST" := fun he => hlen (congrArg List.length he)
  rw [rasa_check_auth_authorized_some, cstring_of_no_nul _ hnul, if_neg hne]

/-- C6 at ASN 64496 with the statement {64496: ["AS-TEST"]} and the name
"AS-TEST " (one trailing space). -/
theorem rasa_check_auth_no_trim_witness :
    (∀ e, e ∈ declared_in [⟨64496, [lit "AS-TEST"]⟩] 64496 ↔ e = lit "AS-TEST") ∧
    [] ++ lit "AS-TEST" ++ [32] = lit "AS-TEST " ∧
    (rasa_check_auth 64496 (some ([] ++ lit "AS-TEST" ++ [32])) (some rasa_auth_zero)).1 = 0 ∧
    authorized_of (rasa_check_auth 64496 (some ([] ++ lit "AS-TEST" ++ [32])) (some rasa_auth_zero))
      = some 0 :=
  have h : ∀ e, e ∈ declared_in [⟨64496, [lit "AS-TEST"]⟩] 64496 ↔ e = lit "AS-TEST" := by
    intro e
    simp [declared_in]
  ⟨h, by decide,
    rasa_check_auth_no_trim [⟨64496, [lit "AS-TEST"]⟩] 64496 rasa_auth_zero [] [32] h
      (by decide) (by decide) (Or.inr (by decide))⟩

/-- C7, the code at the failing input: the loaded statement of ASN 64496 lists
"AS-A" only, so "AS-TEST" equals none of its entries, and the query
(64496, "AS-TEST") returns 0 with authorized = 1 and the reason
"asset authorized", where the claim asks for authorized = 0 and the reason
"asset not in authorized list". -/
theorem rasa_check_auth_unlisted_asset_allowed :
    declared_in [⟨64496, [lit "AS-A"]⟩] 64496 = [lit "AS-A"] ∧
    lit "AS-TEST" ∉ declared_in [⟨64496, [lit "AS-A"]⟩] 64496 ∧
    (rasa_check_auth 64496 (some (lit "AS-TEST")) (some rasa_auth_zero)).1 = 0 ∧
    authorized_of (rasa_check_auth 64496 (some (lit "AS-TEST")) (some rasa_auth_zero)) = some 1 ∧
    reason_of (rasa_check_auth 64496 (some (lit "AS-TEST")) (some rasa_auth_zero))
      = some (lit "asset authorized") := by
  refine ⟨?_, ?_, ?_, ?_, ?_⟩
  · decide
  · decide
  · decide
  · decide
  · decide

/-- C8, the code at the failing input: the loaded data holds a statement of
ASN 64496 only, ASN 99999 has none, and the query (99999, "AS-TEST") returns 0
with authorized = 1 and the reason "asset authorized", where the claim asks
for authorized = 0 and the reason "no RASA-AUTH for this ASN". -/
theorem rasa_check_auth_unknown_asn_allowed :
    ¬ has_statement [⟨64496, [lit "AS-TEST"]⟩] 99999 ∧
    (rasa_check_auth 99999 (some (lit "AS-TEST")) (some rasa_auth_zero)).1 = 0 ∧
    authorized_of (rasa_check_auth 99999 (some (lit "AS-TEST")) (some rasa_auth_zero)) = some 1 ∧
    reason_of (rasa_check_auth 99999 (some (lit "AS-TEST")) (some rasa_auth_zero))
      = some (lit "asset authorized") ∧
    lit "asset authorized" ≠ lit "no RASA-AUTH for this ASN" := by
  refine ⟨?_, ?_, ?_, ?_, ?_⟩
  · simp [has_statement]
  · decide
  · decide
  · decide
  · decide

/-- C9, the code at the failing input: with the empty document loaded neither
"AS-TEST" nor "AS-ANY" occurs in the data, and for ASN 12345 the name
"AS-TEST" gives authorized = 1 while "AS-ANY" gives authorized = 0: the
verdict hangs on the literal "AS-TEST", not on the data. -/
theorem rasa_check_auth_literal_special_cased :
    (∀ st ∈ ([] : List rasa_statement), lit "AS-TEST" ∉ st.authorized_in) ∧
    (∀ st ∈ ([] : List rasa_statement), lit "AS-ANY" ∉ st.authorized_in) ∧
    authorized_of (rasa_check_auth 12345 (some (lit "AS-TEST")) (some rasa_auth_zero)) = some 1 ∧
    authorized_of (rasa_check_auth 12345 (some (lit "AS-ANY")) (some rasa_auth_zero)) = some 0 := by
  refine ⟨?_, ?_, ?_, ?_⟩
  · simp
  · simp
  · decide
  · decide

/-- C10: for every ASN and every asset pointer, NULL or not, `rasa_check_auth`
called with result = NULL returns -1. -/
theorem rasa_check_auth_null_result (asn : Nat) (asset : Option (List Nat)) :
    (rasa_check_auth asn asset none).1 = -1 := by
  cases asset <;> rfl

/-! ## Lemmas on `rasa_load_config` and on sessions -/

theorem load_rasa_obj_eq (cfg : rasa_config) (rasa_obj : Option json_object) :
    load_rasa_obj cfg rasa_obj = cfg := by
  unfold load_rasa_obj
  simp

theorem foldl_load_rasa_obj_eq (rasas_obj : Option json_object) (idxs : List Nat)
    (cfg : rasa_config) :
    idxs.foldl (fun cfg i => load_rasa_obj cfg (json_object_array_get_idx rasas_obj i)) cfg
      = cfg := by
  induction idxs generalizing cfg with
  | nil => rfl
  | cons i idxs ih =>
    rw [List.foldl_cons, load_rasa_obj_eq]
    exact ih cfg

theorem load_rasas_eq (cfg : rasa_config) (root : json_object) : load_rasas cfg root = cfg := by
  unfold load_rasas
  simp only [foldl_load_rasa_obj_eq]
  split
  · split <;> rfl
  · rfl

theorem rasa_load_config_null (env : Env) (cfg : Option rasa_config)
    (filename : Option (List Nat)) (h : cfg = none ∨ filename = none) :
    rasa_load_config env cfg filename = { ret := -1, cfg := cfg, fopened := [] } := by
  rcases h with h | h
  · subst h
    rfl
  · subst h
    cases cfg <;> rfl

theorem rasa_load_config_cfg_some (env : Env) (c : rasa_config) (f : List Nat) :
    (rasa_load_config env (some c) (some f)).cfg = some { c with enabled := 1 } := by
  unfold rasa_load_config
  simp only
  split
  · rfl
  · split
    · rfl
    · split
      · rfl
      · simp only [load_rasas_eq]

theorem rasa_load_config_fopened_some (env : Env) (c : rasa_config) (f : List Nat) :
    (rasa_load_config env (some c) (some f)).fopened = [cstring f] := by
  unfold rasa_load_config
  simp only
  split
  · rfl
  · split
    · rfl
    · split <;> rfl

theorem rasa_load_config_ret_fopen_none (env : Env) (c : rasa_config) (f : List Nat)
    (h : env.fopen (cstring f) = none) :
    (rasa_load_config env (some c) (some f)).ret = -1 := by
  unfold rasa_load_config
  simp only [h]

theorem rasa_load_config_ret_malloc_false (env : Env) (c : rasa_config) (f content : List Nat)
    (h : env.fopen (cstring f) = some content) (hm : env.malloc (content.length + 1) = false) :
    (rasa_load_config env (some c) (some f)).ret = -1 := by
  unfold rasa_load_config
  simp only [h, hm, if_true]

theorem rasa_load_config_ret_parsed (env : Env) (c : rasa_config) (f content : List Nat)
    (h : env.fopen (cstring f) = some content) (hm : env.malloc (content.length + 1) = true) :
    (rasa_load_config env (some c) (some f)).ret
      = if (env.json_tokener_parse (content ++ [0])).isSome then 0 else -1 := by
  unfold rasa_load_config
  simp only [h, hm]
  cases hp : env.json_tokener_parse (content ++ [0]) <;> simp

theorem rasa_load_config_ret_cases (env : Env) (cfg : Option rasa_config)
    (filename : Option (List Nat)) :
    (rasa_load_config env cfg filename).ret = 0 ∨ (rasa_load_config env cfg filename).ret = -1 := by
  cases cfg with
  | none => exact Or.inr (by rw [rasa_load_config_null env none filename (Or.inl rfl)])
  | some c =>
    cases filename with
    | none => exact Or.inr (by rw [rasa_load_config_null env (some c) none (Or.inr rfl)])
    | some f =>
      cases h : env.fopen (cstring f) with
      | none => exact Or.inr (rasa_load_config_ret_fopen_none env c f h)
      | some content =>
        cases hm : env.malloc (content.length + 1) with
        | false => exact Or.inr (rasa_load_config_ret_malloc_false env c f content h hm)
        | true =>
          rw [rasa_load_config_ret_parsed env c f content h hm]
          cases hp : env.json_tokener_parse (content ++ [0]) with
          | none => exact Or.inr (by simp)
          | some root => exact Or.inl (by simp)

theorem rasa_load_config_ret_indep (env : Env) (c c2 : rasa_config)
    (filename : Option (List Nat)) :
    (rasa_load_config env (some c) filename).ret
      = (rasa_load_config env (some c2) filename).ret := by
  cases filename with
  | none => rfl
  | some f =>
    cases h : env.fopen (cstring f) with
    | none =>
      rw [rasa_load_config_ret_fopen_none env c f h, rasa_load_config_ret_fopen_none env c2 f h]
    | some content =>
      cases hm : env.malloc (content.length + 1) with
      | false =>
        rw [rasa_load_config_ret_malloc_false env c f content h hm,
          rasa_load_config_ret_malloc_false env c2 f content h hm]
      | true =>
        rw [rasa_load_config_ret_parsed env c f content h hm,
          rasa_load_config_ret_parsed env c2 f content h hm]

theorem session_run_load_check (env : Env) (st : session) (filename : Option (List Nat))
    (a : Nat) (asset : Option (List Nat)) :
    answer (session_run env st [api_call.load filename, api_call.check a asset])
      = (some (rasa_check_auth a asset st.result).1,
          authorized_of (rasa_check_auth a asset st.result),
          reason_of (rasa_check_auth a asset st.result)) := by
  simp [session_run, session_step, answer, authorized_of, reason_of]

/-! ## The claims on error handling, on `rasa_load_config` and on sessions -/

/-- C11, the code at the failing input: the query (64496, NULL) with a non-null
result returns -1 and leaves the result struct as it was, where the claim and
`test_rasa_auth_null_asset` ask for the return code 0. -/
theorem rasa_check_auth_null_asset_rejected :
    (rasa_check_auth 64496 none (some rasa_auth_zero)).1 = -1 ∧
    (rasa_check_auth 64496 none (some rasa_auth_zero)).2 = some rasa_auth_zero := by
  constructor <;> rfl

/-- C12: on every input on which `rasa_check_auth` returns -1 with a non-null
result, the result struct, its authorized field and its reason buffer, is
exactly what it was before the call. -/
theorem rasa_check_auth_error_no_effect (asn : Nat) (asset : Option (List Nat)) (r : rasa_auth)
    (h : (rasa_check_auth asn asset (some r)).1 = -1) :
    (rasa_check_auth asn asset (some r)).2 = some r := by
  cases asset with
  | none => rfl
  | some s =>
    rw [rasa_check_auth_ret_some] at h
    exact absurd h (by decide)

/-- C12 at the query (64496, NULL) on a result struct that holds the verdict of
an earlier query. -/
theorem rasa_check_auth_error_no_effect_witness :
    (rasa_check_auth 64496 none (some rasa_auth_used)).1 = -1 ∧
    (rasa_check_auth 64496 none (some rasa_auth_used)).2 = some rasa_auth_used :=
  ⟨rfl, rasa_check_auth_error_no_effect 64496 none rasa_auth_used rfl⟩

/-- C13: for every ASN, every non-null asset name and every non-null result,
`rasa_check_auth` returns 0, never a failure code; the outcome is in
authorized, which is 0 or 1, and in a reason string that is not empty. -/
theorem rasa_check_auth_no_failure_code (asn : Nat) (s : List Nat) (r : rasa_auth) :
    (rasa_check_auth asn (some s) (some r)).1 = 0 ∧
    (authorized_of (rasa_check_auth asn (some s) (some r)) = some 0 ∨
      authorized_of (rasa_check_auth asn (some s) (some r)) = some 1) ∧
    ∃ reason, reason_of (rasa_check_auth asn (some s) (some r)) = some reason ∧ reason ≠ [] := by
  refine ⟨rasa_check_auth_ret_some asn s r, ?_, ?_⟩
  · rw [rasa_check_auth_authorized_some]
    by_cases h : cstring s = lit "AS-TEST"
    · exact Or.inr (by rw [if_pos h])
    · exact Or.inl (by rw [if_neg h])
  · rw [rasa_check_auth_reason_some]
    by_cases h : cstring s = lit "AS-TEST"
    · exact ⟨lit "asset authorized", by rw [if_pos h], by decide⟩
    · exact ⟨lit "asset not in authorized list", by rw [if_neg h], by decide⟩

/-- C14: for every ASN a, every asset name s and every two loaded statement
sets that agree in everything but the flags of their statements (so that the
statements of a carry the strictMode flag in one and not in the other), however
the statements are written into the configuration file, the query (a, s) after
the load gives the same authorized value. -/
theorem rasa_check_auth_strict_mode_irrelevant (env : Env)
    (render : List RasaAuthContent → List Nat) (l1 l2 : List RasaAuthContent)
    (st : session) (f : List Nat) (a : Nat) (s : List Nat)
    (h : same_but_flags l1 l2) :
    (answer (session_run (with_file env (cstring f) (render l1)) st
      [api_call.load (some f), api_call.check a (some s)])).2.1
    = (answer (session_run (with_file env (cstring f) (render l2)) st
      [api_call.load (some f), api_call.check a (some s)])).2.1 := by
  rw [session_run_load_check, session_run_load_check]

/-- C14 at ASN 64496 and "AS-TEST": the statement of 64496 without and with
the strictMode flag; both documents load with 0. -/
theorem rasa_check_auth_strict_mode_irrelevant_witness :
    strict_mode (auth_content_example 0) = false ∧
    strict_mode (auth_content_example RASA_AUTH_FLAG_STRICT_MODE) = true ∧
    same_but_flags [auth_content_example 0] [auth_content_example RASA_AUTH_FLAG_STRICT_MODE] ∧
    (session_run
      (with_file
        (env_auth_contents [[auth_content_example 0], [auth_content_example RASA_AUTH_FLAG_STRICT_MODE]])
        (cstring (lit "rasa.json")) (auth_contents_text [auth_content_example 0]))
      session_zero
      [api_call.load (some (lit "rasa.json")), api_call.check 64496 (some (lit "AS-TEST"))]).rets
      = [0, 0] ∧
    (answer (session_run
      (with_file
        (env_auth_contents [[auth_content_example 0], [auth_content_example RASA_AUTH_FLAG_STRICT_MODE]])
        (cstring (lit "rasa.json")) (auth_contents_text [auth_content_example 0]))
      session_zero
      [api_call.load (some (lit "rasa.json")), api_call.check 64496 (some (lit "AS-TEST"))])).2.1
    = (answer (session_run
      (with_file
        (env_auth_contents [[auth_content_example 0], [auth_content_example RASA_AUTH_FLAG_STRICT_MODE]])
        (cstring (lit "rasa.json"))
        (auth_contents_text [auth_content_example RASA_AUTH_FLAG_STRICT_MODE]))
      session_zero
      [api_call.load (some (lit "rasa.json")), api_call.check 64496 (some (lit "AS-TEST"))])).2.1 :=
  ⟨by decide, by decide, rfl, by decide,
    rasa_check_auth_strict_mode_irrelevant
      (env_auth_contents [[auth_content_example 0], [auth_content_example RASA_AUTH_FLAG_STRICT_MODE]])
      auth_contents_text
      [auth_content_example 0] [auth_content_example RASA_AUTH_FLAG_STRICT_MODE]
      session_zero (lit "rasa.json") 64496 (lit "AS-TEST") rfl⟩

/-- C15: for every ASN a, every asset name s and every two authorized_in lists
of the statement of a that contain the same set of names (one a permutation of
the other, or one with entries repeated), however the statements are written
into the configuration file, the query (a, s) after the load gives the same
authorized value. -/
theorem rasa_check_auth_order_duplicates_irrelevant (env : Env)
    (render : List rasa_statement → List Nat) (before after : List rasa_statement)
    (l1 l2 : List (List Nat)) (st : session) (f : List Nat) (a : Nat) (s : List Nat)
    (h : ∀ e, e ∈ l1 ↔ e ∈ l2) :
    (answer (session_run
      (with_file env (cstring f) (render (before ++ { authorized_as := a, authorized_in := l1 } :: after)))
      st [api_call.load (some f), api_call.check a (some s)])).2.1
    = (answer (session_run
      (with_file env (cstring f) (render (before ++ { authorized_as := a, authorized_in := l2 } :: after)))
      st [api_call.load (some f), api_call.check a (some s)])).2.1 := by
  rw [session_run_load_check, session_run_load_check]

/-- C15 at the documents of `test_rasa_auth_duplicate_entries`: ASN 64496 with
"AS-TEST" listed once and listed twice; both documents load with 0. -/
theorem rasa_check_auth_order_duplicates_irrelevant_witness :
    (∀ e, e ∈ [lit "AS-TEST"] ↔ e ∈ [lit "AS-TEST", lit "AS-TEST"]) ∧
    (session_run
      (with_file
        (env_rasas [[⟨64496, [lit "AS-TEST"]⟩], [⟨64496, [lit "AS-TEST", lit "AS-TEST"]⟩]])
        (cstring (lit "rasa.json"))
        (rasas_text ([] ++ { authorized_as := 64496,
                             authorized_in := [lit "AS-TEST", lit "AS-TEST"] } :: [])))
      session_zero
      [api_call.load (some (lit "rasa.json")), api_call.check 64496 (some (lit "AS-TEST"))]).rets
      = [0, 0] ∧
    (answer (session_run
      (with_file
        (env_rasas [[⟨64496, [lit "AS-TEST"]⟩], [⟨64496, [lit "AS-TEST", lit "AS-TEST"]⟩]])
        (cstring (lit "rasa.json"))
        (rasas_text ([] ++ { authorized_as := 64496, authorized_in := [lit "AS-TEST"] } :: [])))
      session_zero
      [api_call.load (some (lit "rasa.json")), api_call.check 64496 (some (lit "AS-TEST"))])).2.1
    = (answer (session_run
      (with_file
        (env_rasas [[⟨64496, [lit "AS-TEST"]⟩], [⟨64496, [lit "AS-TEST", lit "AS-TEST"]⟩]])
        (cstring (lit "rasa.json"))
        (rasas_text ([] ++ { authorized_as := 64496,
                             authorized_in := [lit "AS-TEST", lit "AS-TEST"] } :: [])))
      session_zero
      [api_call.load (some (lit "rasa.json")), api_call.check 64496 (some (lit "AS-TEST"))])).2.1 :=
  have h : ∀ e, e ∈ [lit "AS-TEST"] ↔ e ∈ [lit "AS-TEST", lit "AS-TEST"] := by
    intro e
    simp
  ⟨h, by decide,
    rasa_check_auth_order_duplicates_irrelevant
      (env_rasas [[⟨64496, [lit "AS-TEST"]⟩], [⟨64496, [lit "AS-TEST", lit "AS-TEST"]⟩]])
      rasas_text [] []
      [lit "AS-TEST"] [lit "AS-TEST", lit "AS-TEST"] session_zero (lit "rasa.json") 64496
      (lit "AS-TEST") h⟩

/-- C16, counterexample: with cfg.enabled = 0 and a file that cannot be opened,
`rasa_load_config` returns -1 and leaves cfg.enabled = 1, not the value it had
before the call. -/
theorem rasa_load_config_failure_changes_cfg :
    (rasa_load_config (env_parsing example_table) (some { enabled := 0 })
      (some (lit "missing.json"))).ret = -1 ∧
    (rasa_load_config (env_parsing example_table) (some { enabled := 0 })
      (some (lit "missing.json"))).cfg = some { enabled := 1 } ∧
    (rasa_load_config (env_parsing example_table) (some { enabled := 0 })
      (some (lit "missing.json"))).cfg ≠ some { enabled := 0 } := by
  refine ⟨?_, ?_, ?_⟩
  · decide
  · decide
  · decide

/-- C16 as amended: whenever `rasa_load_config` returns -1, cfg is unchanged if
cfg or filename is NULL; otherwise (the file cannot be opened, the buffer cannot
be allocated, or the content is not accepted by the parser) cfg.enabled has
been set to 1 and no other field of cfg is changed. -/
theorem rasa_load_config_failure_effect (env : Env) (cfg : Option rasa_config)
    (filename : Option (List Nat))
    (h : (rasa_load_config env cfg filename).ret = -1) :
    ((cfg = none ∨ filename = none) → (rasa_load_config env cfg filename).cfg = cfg) ∧
    (∀ c f, cfg = some c → filename = some f →
      (rasa_load_config env cfg filename).cfg = some { c with enabled := 1 }) := by
  constructor
  · intro hnull
    rw [rasa_load_config_null env cfg filename hnull]
  · intro c f hc hf
    subst hc
    subst hf
    exact rasa_load_config_cfg_some env c f

/-- C16 as amended, at cfg.enabled = 0 and a file that cannot be opened. -/
theorem rasa_load_config_failure_effect_witness :
    (rasa_load_config (env_parsing example_table) (some { enabled := 0 })
      (some (lit "missing.json"))).ret = -1 ∧
    (rasa_load_config (env_parsing example_table) (some { enabled := 0 })
      (some (lit "missing.json"))).cfg = some { enabled := 1 } :=
  ⟨by decide,
    (rasa_load_config_failure_effect (env_parsing example_table) (some { enabled := 0 })
      (some (lit "missing.json")) (by decide)).2 { enabled := 0 } (lit "missing.json") rfl rfl⟩

/-- C17: whenever cfg is NULL or filename is NULL, `rasa_load_config` returns
-1, opens no file, and leaves cfg (when non-null) unmodified. -/
theorem rasa_load_config_null_argument (env : Env) (cfg : Option rasa_config)
    (filename : Option (List Nat)) (h : cfg = none ∨ filename = none) :
    (rasa_load_config env cfg filename).ret = -1 ∧
    (rasa_load_config env cfg filename).fopened = [] ∧
    (rasa_load_config env cfg filename).cfg = cfg := by
  rw [rasa_load_config_null env cfg filename h]
  exact ⟨rfl, rfl, rfl⟩

/-- C17 at the call of `test_rasa_auth_load_null_filename`: a zeroed cfg and a
NULL filename. -/
theorem rasa_load_config_null_argument_witness :
    (rasa_load_config (env_parsing example_table) (some { enabled := 0 }) none).ret = -1 ∧
    (rasa_load_config (env_parsing example_table) (some { enabled := 0 }) none).fopened = [] ∧
    (rasa_load_config (env_parsing example_table) (some { enabled := 0 }) none).cfg
      = some { enabled := 0 } :=
  rasa_load_config_null_argument (env_parsing example_table) (some { enabled := 0 }) none
    (Or.inr rfl)

/-- C18, counterexample: the file "empty.json" can be opened and its content
`{}` is accepted by the parser, but no buffer can be allocated, and
`rasa_load_config` returns -1. -/
theorem rasa_load_config_readable_parsable_fails :
    (with_file (env_no_memory example_table) (lit "empty.json") empty_object_text).fopen
      (cstring (lit "empty.json")) = some empty_object_text ∧
    ((with_file (env_no_memory example_table) (lit "empty.json")
      empty_object_text).json_tokener_parse (empty_object_text ++ [0])).isSome = true ∧
    (rasa_load_config (with_file (env_no_memory example_table) (lit "empty.json") empty_object_text)
      (some { enabled := 0 }) (some (lit "empty.json"))).ret = -1 := by
  refine ⟨?_, ?_, ?_⟩
  · decide
  · decide
  · decide

/-- C18 as amended: for every file that can be opened and whose read buffer can
be allocated, `rasa_load_config` (cfg non-null) returns 0 if and only if the
parser accepts the content and -1 if and only if it does not; every accepted
document loads with 0, whatever it holds (no "rasas" key, a "rasas" that is
not an array, records that lack or mistype authorized_as or authorized_in). -/
theorem rasa_load_config_ret_iff_parses (env : Env) (c : rasa_config) (f content : List Nat)
    (hopen : env.fopen (cstring f) = some content)
    (hmalloc : env.malloc (content.length + 1) = true) :
    ((rasa_load_config env (some c) (some f)).ret = 0 ↔
      (env.json_tokener_parse (content ++ [0])).isSome = true) ∧
    ((rasa_load_config env (some c) (some f)).ret = -1 ↔
      env.json_tokener_parse (content ++ [0]) = none) ∧
    (∀ root, env.json_tokener_parse (content ++ [0]) = some root →
      (rasa_load_config env (some c) (some f)).ret = 0) := by
  rw [rasa_load_config_ret_parsed env c f content hopen hmalloc]
  cases hp : env.json_tokener_parse (content ++ [0]) with
  | none => simp
  | some root => simp

/-- C18 as amended, at the documents of the tests: the document of
`test_rasa_auth_non_integer_asn`, whose record has a string for authorized_as
and no authorized_in, and the document `{"rasas":5}` load with 0; the text
`{invalid json` of `test_rasa_auth_load_invalid_json` yields -1. -/
theorem rasa_load_config_ret_iff_parses_witness :
    (with_file (env_parsing example_table) (lit "rasa.json") non_integer_asn_text).fopen
      (cstring (lit "rasa.json")) = some non_integer_asn_text ∧
    (with_file (env_parsing example_table) (lit "rasa.json") non_integer_asn_text).malloc
      (non_integer_asn_text.length + 1) = true ∧
    (rasa_load_config (with_file (env_parsing example_table) (lit "rasa.json") non_integer_asn_text)
      (some { enabled := 0 }) (some (lit "rasa.json"))).ret = 0 ∧
    (rasa_load_config (with_file (env_parsing example_table) (lit "rasa.json") rasas_not_array_text)
      (some { enabled := 0 }) (some (lit "rasa.json"))).ret = 0 ∧
    (rasa_load_config (with_file (env_parsing example_table) (lit "rasa.json") invalid_json_text)
      (some { enabled := 0 }) (some (lit "rasa.json"))).ret = -1 :=
  ⟨by decide, by decide,
    (rasa_load_config_ret_iff_parses
      (with_file (env_parsing example_table) (lit "rasa.json") non_integer_asn_text)
      { enabled := 0 } (lit "rasa.json") non_integer_asn_text (by decide) (by decide)).2.2
      non_integer_asn_document rfl,
    (rasa_load_config_ret_iff_parses
      (with_file (env_parsing example_table) (lit "rasa.json") rasas_not_array_text)
      { enabled := 0 } (lit "rasa.json") rasas_not_array_text (by decide) (by decide)).2.2
      rasas_not_array_document rfl,
    (rasa_load_config_ret_iff_parses
      (with_file (env_parsing example_table) (lit "rasa.json") invalid_json_text)
      { enabled := 0 } (lit "rasa.json") invalid_json_text (by decide) (by decide)).2.1.mpr rfl⟩

/-- C19: after every `rasa_load_config` call that returns 0, cfg.enabled = 1,
whatever cfg.enabled was before and whatever the document holds. -/
theorem rasa_load_config_success_enabled (env : Env) (cfg : Option rasa_config)
    (filename : Option (List Nat))
    (h : (rasa_load_config env cfg filename).ret = 0) :
    (rasa_load_config env cfg filename).cfg.map rasa_config.enabled = some 1 := by
  cases cfg with
  | none =>
    rw [rasa_load_config_null env none filename (Or.inl rfl)] at h
    exact absurd h (show (-1 : Int) ≠ 0 by decide)
  | some c =>
    cases filename with
    | none =>
      rw [rasa_load_config_null env (some c) none (Or.inr rfl)] at h
      exact absurd h (show (-1 : Int) ≠ 0 by decide)
    | some f =>
      rw [rasa_load_config_cfg_some]
      rfl

/-- C19 at the load of `test_rasa_auth_load_empty_object`: the document `{}`,
here into a cfg whose enabled field holds 7. -/
theorem rasa_load_config_success_enabled_witness :
    (rasa_load_config (with_file (env_parsing example_table) (lit "empty.json") empty_object_text)
      (some { enabled := 7 }) (some (lit "empty.json"))).ret = 0 ∧
    (rasa_load_config (with_file (env_parsing example_table) (lit "empty.json") empty_object_text)
      (some { enabled := 7 }) (some (lit "empty.json"))).cfg.map rasa_config.enabled = some 1 :=
  ⟨by decide,
    rasa_load_config_success_enabled
      (with_file (env_parsing example_table) (lit "empty.json") empty_object_text)
      (some { enabled := 7 }) (some (lit "empty.json")) (by decide)⟩

/-- C20: for every configuration document c, in every environment and from
every state of the structs of the caller, loading c twice in succession gives the
same return code both times, leaves cfg as one load leaves it, and
`rasa_check_auth` then answers every query (asn, asset) with the same return
code, authorized value and reason as after loading c once. -/
theorem rasa_load_config_idempotent (env : Env) (c name : List Nat) (st : session) :
    (∃ ret, (session_run (with_file env (cstring name) c) st
        [api_call.load (some name), api_call.load (some name)]).rets = st.rets ++ [ret, ret]) ∧
    (session_run (with_file env (cstring name) c) st
        [api_call.load (some name), api_call.load (some name)]).cfg
      = (session_run (with_file env (cstring name) c) st [api_call.load (some name)]).cfg ∧
    (∀ asn asset,
      answer (session_run (with_file env (cstring name) c) st
        [api_call.load (some name), api_call.load (some name), api_call.check asn asset])
      = answer (session_run (with_file env (cstring name) c) st
        [api_call.load (some name), api_call.check asn asset])) := by
  refine ⟨?_, ?_, ?_⟩
  · refine ⟨(rasa_load_config (with_file env (cstring name) c) st.cfg (some name)).ret, ?_⟩
    cases hcfg : st.cfg with
    | none => simp [session_run, session_step, hcfg, rasa_load_config_null]
    | some c0 =>
      simp only [session_run, session_step, hcfg, List.foldl_cons, List.foldl_nil,
        rasa_load_config_cfg_some, List.append_assoc, List.singleton_append]
      rw [rasa_load_config_ret_indep _ { c0 with enabled := 1 } c0]
  · cases hcfg : st.cfg with
    | none => simp [session_run, session_step, hcfg, rasa_load_config_null]
    | some c0 =>
      simp only [session_run, session_step, hcfg, List.foldl_cons, List.foldl_nil,
        rasa_load_config_cfg_some]
  · intro asn asset
    simp [session_run, session_step, answer]

/-! ## Further lemmas on the result buffer and on sessions -/

theorem rasa_check_auth_some_eq (asn : Nat) (s : List Nat) (r : rasa_auth) :
    rasa_check_auth asn (some s) (some r)
      = (0, some { authorized := if cstring s = lit "AS-TEST" then 1 else 0,
                   reason := strcpy (r.reason.set 0 0)
                     (if cstring s = lit "AS-TEST" then lit "asset authorized"
                      else lit "asset not in authorized list") }) := by
  have hlit : cstring (lit "AS-TEST") = lit "AS-TEST" := cstring_of_no_nul _ as_test_no_nul
  have hiff := strcmp_eq_zero_iff s (lit "AS-TEST")
  rw [hlit] at hiff
  unfold rasa_check_auth
  by_cases h : strcmp s (lit "AS-TEST") = 0
  · simp [h, hiff.mp h]
  · have hne : cstring s ≠ lit "AS-TEST" := fun he => h (hiff.mpr he)
    simp [h, hne]

theorem strlen_strcpy (dst src : List Nat) : strlen (strcpy dst src) = strlen src := by
  unfold strlen
  rw [cstring_strcpy]

theorem strcpy_length (dst src : List Nat) (h : strlen src + 1 ≤ dst.length) :
    (strcpy dst src).length = dst.length := by
  unfold strcpy
  unfold strlen at h
  simp only [List.length_append, List.length_cons, List.length_drop, strlen]
  omega

theorem strcpy_drop (dst src : List Nat) (k : Nat) (h : strlen src + 1 ≤ k) :
    (strcpy dst src).drop k = dst.drop k := by
  unfold strcpy
  unfold strlen at h
  obtain ⟨j, rfl⟩ : ∃ j, k = (cstring src).length + (j + 1) := ⟨k - (cstring src).length - 1, by omega⟩
  rw [List.drop_append, List.drop_succ_cons, List.drop_drop, strlen]
  congr 1
  omega

theorem set_zero_drop (l : List Nat) (x k : Nat) (h : 0 < k) : (l.set 0 x).drop k = l.drop k := by
  cases l with
  | nil => rfl
  | cons a l =>
    cases k with
    | zero => omega
    | succ k => rfl

theorem session_step_config_result (env : Env) (st : session) (c : api_call)
    (h : is_config_call c = true) : (session_step env st c).result = st.result := by
  cases c with
  | load filename => rfl
  | free => rfl
  | check asn asset => simp [is_config_call] at h

theorem session_run_config_result (env : Env) (calls : List api_call) (st : session)
    (h : ∀ c ∈ calls, is_config_call c = true) :
    (session_run env st calls).result = st.result := by
  induction calls generalizing st with
  | nil => rfl
  | cons c calls ih =>
    have hc : is_config_call c = true := h c (List.mem_cons_self c calls)
    have hrest : ∀ d ∈ calls, is_config_call d = true :=
      fun d hd => h d (List.mem_cons_of_mem c hd)
    have hstep := ih (session_step env st c) hrest
    unfold session_run at hstep
    unfold session_run
    rw [List.foldl_cons, hstep, session_step_config_result env st c hc]

theorem answer_check_after (env : Env) (calls : List api_call) (st : session)
    (asn : Nat) (asset : Option (List Nat)) :
    answer (session_run env st (calls ++ [api_call.check asn asset]))
      = (some (rasa_check_auth asn asset (session_run env st calls).result).1,
          authorized_of (rasa_check_auth asn asset (session_run env st calls).result),
          reason_of (rasa_check_auth asn asset (session_run env st calls).result)) := by
  simp [session_run, session_step, answer, authorized_of, reason_of, List.foldl_append]

theorem answer_check_after_config (env : Env) (calls : List api_call) (st : session)
    (asn : Nat) (asset : Option (List Nat)) (h : ∀ c ∈ calls, is_config_call c = true) :
    answer (session_run env st (calls ++ [api_call.check asn asset]))
      = (some (rasa_check_auth asn asset st.result).1,
          authorized_of (rasa_check_auth asn asset st.result),
          reason_of (rasa_check_auth asn asset st.result)) := by
  rw [answer_check_after, session_run_config_result env calls st h]

theorem rasa_verify_bidirectional_some_eq (store : List rasa_set_statement)
    (as_set_name : Option (List Nat)) (asn : Nat) (auth_result : rasa_auth)
    (set_result : rasa_set_membership) :
    rasa_verify_bidirectional store as_set_name asn (some auth_result) (some set_result)
      = (0, (rasa_check_auth asn as_set_name (some auth_result)).2,
          (rasa_check_set_membership store as_set_name asn (some set_result)).2) := by
  rfl

/-! ## The claims on reload, on verification and membership, and on the verdict -/

/-- C21: for every two configuration documents c1 and c2, held by two files,
and every query (asn, asset), the answer of `rasa_check_auth` after loading c1,
freeing and loading c2 equals its answer after loading c2 alone: nothing of the
earlier load is in the answer. -/
theorem rasa_check_auth_reload_isolation (env : Env) (c1 c2 f1 f2 : List Nat) (st : session)
    (asn : Nat) (asset : Option (List Nat)) (hne : cstring f1 ≠ cstring f2) :
    answer (session_run (with_file (with_file env (cstring f1) c1) (cstring f2) c2) st
      [api_call.load (some f1), api_call.free, api_call.load (some f2),
        api_call.check asn asset])
    = answer (session_run (with_file (with_file env (cstring f1) c1) (cstring f2) c2) st
      [api_call.load (some f2), api_call.check asn asset]) := by
  have h3 : ∀ c ∈ [api_call.load (some f1), api_call.free, api_call.load (some f2)],
      is_config_call c = true := by
    intro c hc
    simp only [List.mem_cons, List.mem_singleton, List.not_mem_nil, or_false] at hc
    rcases hc with rfl | rfl | rfl <;> rfl
  have h1 : ∀ c ∈ [api_call.load (some f2)], is_config_call c = true := by
    intro c hc
    simp only [List.mem_singleton] at hc
    subst hc
    rfl
  have e3 := answer_check_after_config (with_file (with_file env (cstring f1) c1) (cstring f2) c2)
    [api_call.load (some f1), api_call.free, api_call.load (some f2)] st asn asset h3
  have e1 := answer_check_after_config (with_file (with_file env (cstring f1) c1) (cstring f2) c2)
    [api_call.load (some f2)] st asn asset h1
  exact e3.trans e1.symm

/-- C21 at the documents of `test_bidirectional_reload_configs`: the first
holds the statement of ASN 64496 for "AS-TEST", the second only a statement of
ASN 64497 for "AS-TEST2"; all calls return 0 and the query (64496, "AS-TEST")
is answered after the reload as after loading the second document alone, in
both cases with authorized = 1. -/
theorem rasa_check_auth_reload_isolation_witness :
    cstring (lit "auth1.json") ≠ cstring (lit "auth2.json") ∧
    (session_run
      (with_file (with_file
        (env_rasas [[⟨64496, [lit "AS-TEST"]⟩], [⟨64497, [lit "AS-TEST2"]⟩]])
        (cstring (lit "auth1.json")) (rasas_text [⟨64496, [lit "AS-TEST"]⟩]))
        (cstring (lit "auth2.json")) (rasas_text [⟨64497, [lit "AS-TEST2"]⟩]))
      session_zero
      [api_call.load (some (lit "auth1.json")), api_call.free,
        api_call.load (some (lit "auth2.json")),
        api_call.check 64496 (some (lit "AS-TEST"))]).rets = [0, 0, 0] ∧
    (answer (session_run
      (with_file (with_file
        (env_rasas [[⟨64496, [lit "AS-TEST"]⟩], [⟨64497, [lit "AS-TEST2"]⟩]])
        (cstring (lit "auth1.json")) (rasas_text [⟨64496, [lit "AS-TEST"]⟩]))
        (cstring (lit "auth2.json")) (rasas_text [⟨64497, [lit "AS-TEST2"]⟩]))
      session_zero
      [api_call.load (some (lit "auth2.json")),
        api_call.check 64496 (some (lit "AS-TEST"))])).2.1 = some 1 ∧
    answer (session_run
      (with_file (with_file
        (env_rasas [[⟨64496, [lit "AS-TEST"]⟩], [⟨64497, [lit "AS-TEST2"]⟩]])
        (cstring (lit "auth1.json")) (rasas_text [⟨64496, [lit "AS-TEST"]⟩]))
        (cstring (lit "auth2.json")) (rasas_text [⟨64497, [lit "AS-TEST2"]⟩]))
      session_zero
      [api_call.load (some (lit "auth1.json")), api_call.free,
        api_call.load (some (lit "auth2.json")),
        api_call.check 64496 (some (lit "AS-TEST"))])
    = answer (session_run
      (with_file (with_file
        (env_rasas [[⟨64496, [lit "AS-TEST"]⟩], [⟨64497, [lit "AS-TEST2"]⟩]])
        (cstring (lit "auth1.json")) (rasas_text [⟨64496, [lit "AS-TEST"]⟩]))
        (cstring (lit "auth2.json")) (rasas_text [⟨64497, [lit "AS-TEST2"]⟩]))
      session_zero
      [api_call.load (some (lit "auth2.json")),
        api_call.check 64496 (some (lit "AS-TEST"))]) :=
  ⟨by decide, by decide, by decide,
    rasa_check_auth_reload_isolation
      (env_rasas [[⟨64496, [lit "AS-TEST"]⟩], [⟨64497, [lit "AS-TEST2"]⟩]])
      (rasas_text [⟨64496, [lit "AS-TEST"]⟩]) (rasas_text [⟨64497, [lit "AS-TEST2"]⟩])
      (lit "auth1.json") (lit "auth2.json") session_zero 64496 (some (lit "AS-TEST"))
      (by decide)⟩

/-- C22, the code at the failing input, the scenario of
`test_bidirectional_different_asn_in_each`: the loaded authorization data holds
a statement of ASN 64496 only and the membership data lists only 64497 under
"AS-TEST".  The verification of ("AS-TEST", 64496) gives authorized = 1,
is_member = 0; the verification of ("AS-TEST", 64497) returns 0 with
authorized = 1, the result of `rasa_check_auth`, and is_member = 1, where the
claim asks for authorized = 0. -/
theorem rasa_verify_bidirectional_other_asn_authorized :
    ¬ has_statement [⟨64496, [lit "AS-TEST"]⟩] 64497 ∧
    (rasa_verify_bidirectional [⟨lit "AS-TEST", [64497]⟩] (some (lit "AS-TEST")) 64496
      (some rasa_auth_zero) (some rasa_set_membership_zero)).2.1.map rasa_auth.authorized
      = some 1 ∧
    (rasa_verify_bidirectional [⟨lit "AS-TEST", [64497]⟩] (some (lit "AS-TEST")) 64496
      (some rasa_auth_zero) (some rasa_set_membership_zero)).2.2.map rasa_set_membership.is_member
      = some 0 ∧
    (rasa_verify_bidirectional [⟨lit "AS-TEST", [64497]⟩] (some (lit "AS-TEST")) 64497
      (some rasa_auth_zero) (some rasa_set_membership_zero)).1 = 0 ∧
    (rasa_verify_bidirectional [⟨lit "AS-TEST", [64497]⟩] (some (lit "AS-TEST")) 64497
      (some rasa_auth_zero) (some rasa_set_membership_zero)).2.1.map rasa_auth.authorized
      = some 1 ∧
    (rasa_verify_bidirectional [⟨lit "AS-TEST", [64497]⟩] (some (lit "AS-TEST")) 64497
      (some rasa_auth_zero) (some rasa_set_membership_zero)).2.1
      = (rasa_check_auth 64497 (some (lit "AS-TEST")) (some rasa_auth_zero)).2 ∧
    (rasa_verify_bidirectional [⟨lit "AS-TEST", [64497]⟩] (some (lit "AS-TEST")) 64497
      (some rasa_auth_zero) (some rasa_set_membership_zero)).2.2.map rasa_set_membership.is_member
      = some 1 := by
  refine ⟨?_, ?_, ?_, ?_, ?_, ?_, ?_⟩
  · simp [has_statement]
  · decide
  · decide
  · decide
  · decide
  · rfl
  · decide

/-- C23, the code at the failing input, the scenario of
`test_bidirectional_default_allow_behavior`: with both stores empty the
verification of ("AS-ANY", 12345) with both results provided returns 0 and
gives is_member = 1 but authorized = 0, where the claim asks for
authorized = 1; with a NULL set_result the call returns -1. -/
theorem rasa_verify_bidirectional_empty_stores_denied :
    (rasa_verify_bidirectional [] (some (lit "AS-ANY")) 12345
      (some rasa_auth_zero) (some rasa_set_membership_zero)).1 = 0 ∧
    (rasa_verify_bidirectional [] (some (lit "AS-ANY")) 12345
      (some rasa_auth_zero) (some rasa_set_membership_zero)).2.1.map rasa_auth.authorized
      = some 0 ∧
    (rasa_verify_bidirectional [] (some (lit "AS-ANY")) 12345
      (some rasa_auth_zero) (some rasa_set_membership_zero)).2.2.map rasa_set_membership.is_member
      = some 1 ∧
    (rasa_verify_bidirectional [] (some (lit "AS-ANY")) 12345
      (some rasa_auth_zero) none).1 = -1 := by
  refine ⟨?_, ?_, ?_, ?_⟩
  · decide
  · decide
  · decide
  · decide

/-- C24: for every AS-SET name s that has no membership statement in the loaded
data, every ASN a and every result struct, `rasa_check_set_membership` returns
0 and sets is_member = 1; a name that differs from a loaded one in case or by a
trailing blank is such a name. -/
theorem rasa_check_set_membership_default_allow (store : List rasa_set_statement)
    (s : List Nat) (a : Nat) (r : rasa_set_membership)
    (h : set_statements store (some s) = []) :
    (rasa_check_set_membership store (some s) a (some r)).1 = 0 ∧
    is_member_of (rasa_check_set_membership store (some s) a (some r)) = some 1 := by
  unfold rasa_check_set_membership is_member_of
  simp [h]

/-- C24 at the data of `test_rasa_set_case_sensitive` and
`test_rasa_set_check_wrong_set_name`: only "AS-TEST" has a statement, and the
names "as-test", "AS-TEST " and "AS-OTHER" are members by default. -/
theorem rasa_check_set_membership_default_allow_witness :
    set_statements [⟨lit "AS-TEST", [64496]⟩] (some (lit "as-test")) = [] ∧
    is_member_of (rasa_check_set_membership [⟨lit "AS-TEST", [64496]⟩] (some (lit "as-test"))
      64496 (some rasa_set_membership_zero)) = some 1 ∧
    is_member_of (rasa_check_set_membership [⟨lit "AS-TEST", [64496]⟩] (some (lit "AS-TEST "))
      64496 (some rasa_set_membership_zero)) = some 1 ∧
    is_member_of (rasa_check_set_membership [⟨lit "AS-TEST", [64496]⟩] (some (lit "AS-OTHER"))
      64496 (some rasa_set_membership_zero)) = some 1 :=
  ⟨by decide,
    (rasa_check_set_membership_default_allow [⟨lit "AS-TEST", [64496]⟩] (lit "as-test") 64496
      rasa_set_membership_zero (by decide)).2,
    (rasa_check_set_membership_default_allow [⟨lit "AS-TEST", [64496]⟩] (lit "AS-TEST ") 64496
      rasa_set_membership_zero (by decide)).2,
    (rasa_check_set_membership_default_allow [⟨lit "AS-TEST", [64496]⟩] (lit "AS-OTHER") 64496
      rasa_set_membership_zero (by decide)).2⟩

/-- C25: for every AS-SET name s that has at least one membership statement,
every ASN a and every result struct, `rasa_check_set_membership` returns 0,
with is_member = 1 if and only if a belongs to the union of the members lists
of the statements of s, and otherwise with is_member = 0 and the reason
"ASN not in member list". -/
theorem rasa_check_set_membership_listed (store : List rasa_set_statement)
    (s : List Nat) (a : Nat) (r : rasa_set_membership)
    (h : set_statements store (some s) ≠ []) :
    (rasa_check_set_membership store (some s) a (some r)).1 = 0 ∧
    (is_member_of (rasa_check_set_membership store (some s) a (some r)) = some 1 ↔
      a ∈ merged_members store (some s)) ∧
    (a ∉ merged_members store (some s) →
      is_member_of (rasa_check_set_membership store (some s) a (some r)) = some 0 ∧
      member_reason_of (rasa_check_set_membership store (some s) a (some r))
        = some (lit "ASN not in member list")) := by
  have hlit : cstring (lit "ASN not in member list") = lit "ASN not in member list" := by decide
  unfold rasa_check_set_membership is_member_of member_reason_of
  by_cases hm : a ∈ merged_members store (some s)
  · simp [h, hm]
  · simp [h, hm, cstring_strcpy, hlit]

/-- C25 at the data of `test_rasa_set_check_multiple_members` and of
`test_rasa_set_check_empty_members`: 64497 is a member of "AS-TEST", 64499 is
not, and an empty members list denies 64496. -/
theorem rasa_check_set_membership_listed_witness :
    set_statements [⟨lit "AS-TEST", [64496, 64497, 64498]⟩] (some (lit "AS-TEST")) ≠ [] ∧
    is_member_of (rasa_check_set_membership [⟨lit "AS-TEST", [64496, 64497, 64498]⟩]
      (some (lit "AS-TEST")) 64497 (some rasa_set_membership_zero)) = some 1 ∧
    (is_member_of (rasa_check_set_membership [⟨lit "AS-TEST", [64496, 64497, 64498]⟩]
      (some (lit "AS-TEST")) 64499 (some rasa_set_membership_zero)) = some 0 ∧
     member_reason_of (rasa_check_set_membership [⟨lit "AS-TEST", [64496, 64497, 64498]⟩]
      (some (lit "AS-TEST")) 64499 (some rasa_set_membership_zero))
        = some (lit "ASN not in member list")) ∧
    (is_member_of (rasa_check_set_membership [⟨lit "AS-TEST", []⟩]
      (some (lit "AS-TEST")) 64496 (some rasa_set_membership_zero)) = some 0 ∧
     member_reason_of (rasa_check_set_membership [⟨lit "AS-TEST", []⟩]
      (some (lit "AS-TEST")) 64496 (some rasa_set_membership_zero))
        = some (lit "ASN not in member list")) :=
  ⟨by decide,
    (rasa_check_set_membership_listed [⟨lit "AS-TEST", [64496, 64497, 64498]⟩] (lit "AS-TEST")
      64497 rasa_set_membership_zero (by decide)).2.1.mpr (by decide),
    (rasa_check_set_membership_listed [⟨lit "AS-TEST", [64496, 64497, 64498]⟩] (lit "AS-TEST")
      64499 rasa_set_membership_zero (by decide)).2.2 (by decide),
    (rasa_check_set_membership_listed [⟨lit "AS-TEST", []⟩] (lit "AS-TEST")
      64496 rasa_set_membership_zero (by decide)).2.2 (by decide)⟩

/-- C26: for every ASN, every non-null asset name and every two initial
contents of the result struct, `rasa_check_auth` leaves the same authorized
value and the same reason string; so on a struct that an earlier call has
written, whatever that call was, the verdict is the one a zeroed struct gets. -/
theorem rasa_check_auth_fresh_verdict (asn : Nat) (s : List Nat) (r1 r2 : rasa_auth) :
    (authorized_of (rasa_check_auth asn (some s) (some r1))
        = authorized_of (rasa_check_auth asn (some s) (some r2)) ∧
      reason_of (rasa_check_auth asn (some s) (some r1))
        = reason_of (rasa_check_auth asn (some s) (some r2))) ∧
    (∀ asn0 s0,
      authorized_of (rasa_check_auth asn (some s) (rasa_check_auth asn0 (some s0) (some r1)).2)
        = authorized_of (rasa_check_auth asn (some s) (some rasa_auth_zero)) ∧
      reason_of (rasa_check_auth asn (some s) (rasa_check_auth asn0 (some s0) (some r1)).2)
        = reason_of (rasa_check_auth asn (some s) (some rasa_auth_zero))) := by
  refine ⟨⟨?_, ?_⟩, ?_⟩
  · rw [rasa_check_auth_authorized_some, rasa_check_auth_authorized_some]
  · rw [rasa_check_auth_reason_some, rasa_check_auth_reason_some]
  · intro asn0 s0
    rw [rasa_check_auth_some_eq asn0 s0 r1]
    constructor
    · rw [rasa_check_auth_authorized_some, rasa_check_auth_authorized_some]
    · rw [rasa_check_auth_reason_some, rasa_check_auth_reason_some]

/-- C27: for every ASN, every non-null asset name s and every non-null result,
`rasa_check_auth` returns 0 and sets (authorized, reason) to
(1, "asset authorized") if s is byte for byte "AS-TEST" and to
(0, "asset not in authorized list") otherwise; there is no other outcome. -/
theorem rasa_check_auth_exact (asn : Nat) (s : List Nat) (r : rasa_auth) :
    (rasa_check_auth asn (some s) (some r)).1 = 0 ∧
    (authorized_of (rasa_check_auth asn (some s) (some r)),
      reason_of (rasa_check_auth asn (some s) (some r)))
      = if cstring s = lit "AS-TEST" then (some 1, some (lit "asset authorized"))
        else (some 0, some (lit "asset not in authorized list")) := by
  refine ⟨rasa_check_auth_ret_some asn s r, ?_⟩
  rw [rasa_check_auth_authorized_some, rasa_check_auth_reason_some]
  by_cases h : cstring s = lit "AS-TEST"
  · simp [h]
  · simp [h]

/-- C28: for every two ASNs, every asset pointer and every result pointer,
`rasa_check_auth` gives the same return code and leaves the same result
struct, authorized value and reason: the ASN is not read. -/
theorem rasa_check_auth_asn_irrelevant (a1 a2 : Nat) (asset : Option (List Nat))
    (result : Option rasa_auth) :
    rasa_check_auth a1 asset result = rasa_check_auth a2 asset result ∧
    rasa_check_auth 0 asset result = rasa_check_auth 4294967295 asset result := by
  constructor <;> rfl

/-- C29: for every query (asn, asset) on every result struct, the return code,
the authorized value and the reason are the same after any two sequences of
`rasa_load_config` and `rasa_free_config` calls in any two environments, be it
no call at all, a load that failed or a load that succeeded; and
`rasa_free_config` leaves cfg as it was. -/
theorem rasa_check_auth_config_irrelevant (env1 env2 : Env) (st : session)
    (calls1 calls2 : List api_call) (asn : Nat) (asset : Option (List Nat))
    (h1 : ∀ c ∈ calls1, is_config_call c = true)
    (h2 : ∀ c ∈ calls2, is_config_call c = true) :
    answer (session_run env1 st (calls1 ++ [api_call.check asn asset]))
      = answer (session_run env2 st (calls2 ++ [api_call.check asn asset])) ∧
    (∀ cfg, rasa_free_config cfg = cfg) ∧
    (session_run env1 st (calls1 ++ [api_call.free])).cfg = (session_run env1 st calls1).cfg := by
  refine ⟨?_, ?_, ?_⟩
  · rw [answer_check_after_config env1 calls1 st asn asset h1,
      answer_check_after_config env2 calls2 st asn asset h2]
  · intro cfg
    cases cfg <;> rfl
  · simp only [session_run, List.foldl_append, List.foldl_cons, List.foldl_nil, session_step]
    cases (List.foldl (session_step env1) st calls1).cfg <;> rfl

/-- C29 at the query (64496, "AS-OTHER") on a zeroed result: with no call made
before it, and after a load that fails (no such file), a load of `{}` that
returns 0 and a free, the answer is the same. -/
theorem rasa_check_auth_config_irrelevant_witness :
    (session_run (with_file (env_parsing example_table) (lit "empty.json") empty_object_text)
      session_zero
      [api_call.load (some (lit "missing.json")), api_call.load (some (lit "empty.json")),
        api_call.free]).rets = [-1, 0] ∧
    answer (session_run (env_parsing example_table) session_zero
      ([] ++ [api_call.check 64496 (some (lit "AS-OTHER"))]))
    = answer (session_run
      (with_file (env_parsing example_table) (lit "empty.json") empty_object_text) session_zero
      ([api_call.load (some (lit "missing.json")), api_call.load (some (lit "empty.json")),
        api_call.free] ++ [api_call.check 64496 (some (lit "AS-OTHER"))])) :=
  ⟨by decide,
    (rasa_check_auth_config_irrelevant (env_parsing example_table)
      (with_file (env_parsing example_table) (lit "empty.json") empty_object_text) session_zero
      [] [api_call.load (some (lit "missing.json")), api_call.load (some (lit "empty.json")),
        api_call.free] 64496 (some (lit "AS-OTHER")) (by decide) (by decide)).1⟩

/-- C30: on every call of `rasa_check_auth` that returns 0, the string in
result.reason with its terminating NUL takes at most 29 bytes, whatever the
asset; in the 256-byte reason array the write stays inside: the array keeps
its 256 bytes and the bytes from offset 29 on are untouched. -/
theorem rasa_check_auth_reason_bound (asn : Nat) (asset : Option (List Nat)) (r : rasa_auth)
    (h : (rasa_check_auth asn asset (some r)).1 = 0) :
    ∃ r2, (rasa_check_auth asn asset (some r)).2 = some r2 ∧
      strlen r2.reason + 1 ≤ 29 ∧
      (r.reason.length = 256 →
        r2.reason.length = 256 ∧ r2.reason.drop 29 = r.reason.drop 29) := by
  cases asset with
  | none =>
    have hret : (rasa_check_auth asn none (some r)).1 = -1 := rfl
    rw [hret] at h
    exact absurd h (show (-1 : Int) ≠ 0 by decide)
  | some s =>
    have hlen1 : strlen (lit "asset authorized") = 16 := by decide
    have hlen2 : strlen (lit "asset not in authorized list") = 28 := by decide
    rw [rasa_check_auth_some_eq]
    refine ⟨_, rfl, ?_, ?_⟩
    · simp only [strlen_strcpy]
      split
      · rw [hlen1]
        omega
      · rw [hlen2]
    · intro h256
      have hset : (r.reason.set 0 0).length = 256 := by rw [List.length_set, h256]
      constructor
      · rw [strcpy_length, hset]
        rw [hset]
        split
        · rw [hlen1]
          omega
        · rw [hlen2]
          omega
      · rw [strcpy_drop, set_zero_drop _ _ _ (by omega)]
        split
        · rw [hlen1]
          omega
        · rw [hlen2]

/-- C30 at a zeroed result struct and an asset name of 300 bytes, longer than
the reason array. -/
theorem rasa_check_auth_reason_bound_witness :
    (rasa_check_auth 64496 (some (List.replicate 300 65)) (some rasa_auth_zero)).1 = 0 ∧
    rasa_auth_zero.reason.length = 256 ∧
    ∃ r2, (rasa_check_auth 64496 (some (List.replicate 300 65)) (some rasa_auth_zero)).2 = some r2 ∧
      strlen r2.reason + 1 ≤ 29 ∧
      (rasa_auth_zero.reason.length = 256 →
        r2.reason.length = 256 ∧ r2.reason.drop 29 = rasa_auth_zero.reason.drop 29) :=
  ⟨rasa_check_auth_ret_some _ _ _, List.length_replicate 256 0,
    rasa_check_auth_reason_bound 64496 (some (List.replicate 300 65)) rasa_auth_zero
      (rasa_check_auth_ret_some _ _ _)⟩

end Rasa
